import Mathlib

/-!
Verification of `src/HW4/mp2.py` (adaptive RK4 infall integrator and 3D
parameter sweep).

Floating-point arithmetic is idealised as exact real arithmetic; numpy
vectors of dimension `n` become `Fin n → ℝ`, and `np.linalg.norm` becomes
the Euclidean norm `npNorm`.  The float literals `1e-10`, `1e-20`, `1e-7`
of the source are written `1/10^10`, `1/10^20`, `1/10^7`.  The
possibly-nonterminating `while` loop of `time_to_schwarzschild` is
embedded with an explicit fuel parameter: `none` means the loop has not
finished within `fuel` iterations, `some t` means the Python function
returns `t`.
-/

namespace MP2

noncomputable section

/-- Vectors: numpy float64 arrays of length `n`, idealised over `ℝ`. -/
abbrev Vec (n : ℕ) : Type := Fin n → ℝ

/-- Embedding of `np.linalg.norm` (Euclidean norm). -/
def npNorm {n : ℕ} (v : Vec n) : ℝ := Real.sqrt (∑ i, v i ^ 2)

/-- Embedding of `acceleration(r)`, mp2.py lines 17-22:
`norm = np.linalg.norm(r); if norm < 1e-10: return zeros; return -1/norm**3 * r / 4`. -/
def acceleration {n : ℕ} (r : Vec n) : Vec n :=
  if npNorm r < 1 / 10 ^ 10 then 0 else (-1 / npNorm r ^ 3 / 4) • r

/-- Embedding of `vel_dispersion(v, A, B)`, mp2.py lines 24-26:
`return -A/(np.linalg.norm(v)**3 + B) * v`.  Note: no degenerate-case guard. -/
def vel_dispersion {n : ℕ} (v : Vec n) (A B : ℝ) : Vec n :=
  (-A / (npNorm v ^ 3 + B)) • v

/-- Embedding of `rk4_step(r, v, dt, alpha_dispersion, A, B)`, mp2.py lines 28-45. -/
def rk4_step {n : ℕ} (r v : Vec n) (dt alpha_dispersion A B : ℝ) : Vec n × Vec n :=
  let k1_v := acceleration r + alpha_dispersion • vel_dispersion v A B
  let k1_r := v
  let k2_v := acceleration (r + (0.5 * dt) • k1_r) +
      alpha_dispersion • vel_dispersion (v + (0.5 * dt) • k1_v) A B
  let k2_r := v + (0.5 * dt) • k1_v
  let k3_v := acceleration (r + (0.5 * dt) • k2_r) +
      alpha_dispersion • vel_dispersion (v + (0.5 * dt) • k2_v) A B
  let k3_r := v + (0.5 * dt) • k2_v
  let k4_v := acceleration (r + dt • k3_r) +
      alpha_dispersion • vel_dispersion (v + dt • k3_v) A B
  let k4_r := v + dt • k3_v
  (r + (dt / 6) • (k1_r + (2:ℝ) • k2_r + (2:ℝ) • k3_r + k4_r),
   v + (dt / 6) • (k1_v + (2:ℝ) • k2_v + (2:ℝ) • k3_v + k4_v))

/-- Modelled from the spec: the pure two-body free-fall RK4 step with no drag
term (spec section 4.2, "`rk4_step` with `alpha_dispersion=0` reduces to pure
two-body free-fall dynamics").  This is the comparison definition for the
refinement claim C7; it is `rk4_step` with the dispersion contribution erased. -/
def rk4_free {n : ℕ} (r v : Vec n) (dt : ℝ) : Vec n × Vec n :=
  let k1_v := acceleration r
  let k1_r := v
  let k2_v := acceleration (r + (0.5 * dt) • k1_r)
  let k2_r := v + (0.5 * dt) • k1_v
  let k3_v := acceleration (r + (0.5 * dt) • k2_r)
  let k3_r := v + (0.5 * dt) • k2_v
  let k4_v := acceleration (r + dt • k3_r)
  let k4_r := v + dt • k3_v
  (r + (dt / 6) • (k1_r + (2:ℝ) • k2_r + (2:ℝ) • k3_r + k4_r),
   v + (dt / 6) • (k1_v + (2:ℝ) • k2_v + (2:ℝ) • k3_v + k4_v))

/-- The loop state of `time_to_schwarzschild`: current position `r`, velocity
`v`, accumulated simulated time `t`, current step size `dt`, and the
accepted-step counter `i` (a Python int). -/
structure SchwState (n : ℕ) where
  r : Vec n
  v : Vec n
  t : ℝ
  dt : ℝ
  i : ℤ

/-- The parameters of `time_to_schwarzschild` that stay fixed in the loop. -/
structure SchwParams where
  tol : ℝ
  alpha : ℝ
  A : ℝ
  B : ℝ

/-- Lines 56-57: `r1, v1 = rk4_step(r, v, dt, ...); r1, v1 = rk4_step(r1, v1, dt, ...)`. -/
def twoStep {n : ℕ} (p : SchwParams) (st : SchwState n) : Vec n × Vec n :=
  let s1 := rk4_step st.r st.v st.dt p.alpha p.A p.B
  rk4_step s1.1 s1.2 st.dt p.alpha p.A p.B

/-- Line 58: `r2, v2 = rk4_step(r, v, 2*dt, ...)`. -/
def bigStep {n : ℕ} (p : SchwParams) (st : SchwState n) : Vec n × Vec n :=
  rk4_step st.r st.v (2 * st.dt) p.alpha p.A p.B

/-- Lines 59-61: `norm = np.linalg.norm(r2-r1); if norm < 1e-20: norm = 1e-20`. -/
def errNorm {n : ℕ} (p : SchwParams) (st : SchwState n) : ℝ :=
  let norm0 := npNorm ((bigStep p st).1 - (twoStep p st).1)
  if norm0 < 1 / 10 ^ 20 then 1 / 10 ^ 20 else norm0

/-- Line 62: `rho = 30 * dt * tol / norm`. -/
def schwRho {n : ℕ} (p : SchwParams) (st : SchwState n) : ℝ :=
  30 * st.dt * p.tol / errNorm p st

/-- Line 69: `dt = min(dt * rho**(1/4), 2 * dt)` (the value assigned to `dt`,
computed from the pre-update `dt`). -/
def newDt {n : ℕ} (p : SchwParams) (st : SchwState n) : ℝ :=
  min (st.dt * schwRho p st ^ ((1:ℝ) / 4)) (2 * st.dt)

/-- One iteration of the `while` body, lines 56-69: the step-doubling error
estimate, the `rho >= 1` accept test (lines 63-67: advance `t` by `2*dt`,
commit state to `(r1, v1)`, increment `i`), and the `dt` update of line 69.
The threshold check of lines 71-73 is modelled in `schwLoop`. -/
def schwBody {n : ℕ} (p : SchwParams) (st : SchwState n) : SchwState n :=
  if 1 ≤ schwRho p st then
    { r := (twoStep p st).1, v := (twoStep p st).2, t := st.t + 2 * st.dt,
      dt := newDt p st, i := st.i + 1 }
  else
    { r := st.r, v := st.v, t := st.t, dt := newDt p st, i := st.i }

/-- The `while i < num_steps//2` loop of lines 55-75, with explicit fuel.
Each iteration runs the body (`schwBody`) and then performs the early-exit
check of lines 71-73 (`if np.linalg.norm(r) < 1e-7: return t`); when the
loop guard fails, line 75 returns `tf`.  `none` means the loop did not
finish within `fuel` iterations. -/
def schwLoop {n : ℕ} (p : SchwParams) (budget : ℤ) (tf : ℝ) :
    ℕ → SchwState n → Option ℝ
  | 0, _ => none
  | fuel + 1, st =>
    if st.i < budget then
      let st1 := schwBody p st
      if npNorm st1.r < 1 / 10 ^ 7 then some st1.t
      else schwLoop p budget tf fuel st1
    else some tf

/-- Python `int(x)` on a float: truncation toward zero. -/
def pyInt (x : ℝ) : ℤ := if x < 0 then ⌈x⌉ else ⌊x⌋

/-- Embedding of `time_to_schwarzschild(r0, v0, dt, tf, tol, alpha_dispersion, A, B)`,
mp2.py lines 47-75: `num_steps = int(tf / dt)`, the loop runs while
`i < num_steps//2` (Python floor division, `Int.fdiv`), starting from
`t = 0`, `i = 0`, state `(r0, v0)` and step `dt`. -/
def time_to_schwarzschild {n : ℕ} (fuel : ℕ) (r0 v0 : Vec n)
    (dt tf tol alpha_dispersion A B : ℝ) : Option ℝ :=
  schwLoop ⟨tol, alpha_dispersion, A, B⟩ ((pyInt (tf / dt)).fdiv 2) tf fuel
    ⟨r0, v0, 0, dt, 0⟩

/-- The all-zero 1-dimensional loop state with given `t`, `dt`, `i`
(used to evaluate the embedding on concrete inputs). -/
def zeroState (t dt : ℝ) (i : ℤ) : SchwState 1 := ⟨0, 0, t, dt, i⟩

/-- Read a Python list of floats as an `n`-dimensional numpy vector
(out-of-range components default to `0`; all claims use matching lengths). -/
def coerceVec (n : ℕ) (l : List ℝ) : Vec n := fun i => l.getD i 0

/-- The forms in which `v0_values` can be passed to `parameter_sweep`:
`None`, a single flat vector (`np.array(...)` of ndim 1), or a list of
vectors (ndim 2). -/
inductive V0Arg
  | noArg : V0Arg
  | flat (l : List ℝ) : V0Arg
  | mat (m : List (List ℝ)) : V0Arg

/-- The value computed for grid cell `(i, j, k)` (mp2.py lines 84-90):
`time_to_schwarzschild(r0, v0_values[k], dt, tf, tol, alpha_dispersion,
A_values[i], B_values[j])`, with the fuel/`getD` artifacts of the embedding. -/
def sweepCell (fuel : ℕ) (r0 : List ℝ) (dt tf tol alpha : ℝ)
    (Av Bv : List ℝ) (v0s : List (List ℝ)) (q : ℕ × ℕ × ℕ) : ℝ :=
  (time_to_schwarzschild fuel (coerceVec r0.length r0)
    (coerceVec r0.length (v0s.getD q.2.2 [])) dt tf tol alpha
    (Av.getD q.1 0) (Bv.getD q.2.1 0)).getD 0

/-- One assignment `results[i, j, k] = t` into the results tensor. -/
def writeCell (f : ℕ → ℕ → ℕ → ℝ) (q : ℕ × ℕ × ℕ) (x : ℝ) : ℕ → ℕ → ℕ → ℝ :=
  fun a b c => if (a, b, c) = q then x else f a b c

/-- Perform a list of `(index, value)` assignments in order. -/
def mergeWrites (f0 : ℕ → ℕ → ℕ → ℝ) (L : List ((ℕ × ℕ × ℕ) × ℝ)) :
    ℕ → ℕ → ℕ → ℝ :=
  L.foldl (fun f w => writeCell f w.1 w.2) f0

/-- Embedding of `results = np.zeros(...)`: the zero-initialised tensor (line 136). -/
def zeroTensor : ℕ → ℕ → ℕ → ℝ := fun _ _ _ => 0

/-- Lines 139-141: `params = [(i, j, k) for i in range(len(A_values)) for j in
range(len(B_values)) for k in range(len(v0_values))]` (row-major Cartesian
index list). -/
def sweepParams (NA NB NV : ℕ) : List (ℕ × ℕ × ℕ) :=
  (List.range NA).product ((List.range NB).product (List.range NV))

/-- Embedding of `process_chunk_worker` (mp2.py lines 77-92): evaluates every triple of a
chunk and returns the list of `(i, j, k, t)` tuples.  The per-triple lookup
and simulation call is abstracted as the cell function `cell` (instantiated
with `sweepCell` in `parameter_sweep`). -/
def process_chunk_worker (cell : ℕ × ℕ × ℕ → ℝ) (chunk : List (ℕ × ℕ × ℕ)) :
    List ((ℕ × ℕ × ℕ) × ℝ) :=
  chunk.map fun q => (q, cell q)

/-- Contiguous slices `params[k:k+cs]` for `k = 0, cs, 2*cs, ...` (line 160);
only used with `cs ≥ 2`. -/
def chunksOf (cs : ℕ) : List α → List (List α)
  | [] => []
  | x :: xs => (x :: xs.take (cs - 1)) :: chunksOf cs (xs.drop (cs - 1))
  termination_by l => l.length
  decreasing_by simp [List.length_drop]; omega

/-- Lines 157-160: singleton chunks when `chunk_size <= 1`, contiguous slices
of length `chunk_size` otherwise. -/
def pyChunks (cs : ℤ) (l : List (ℕ × ℕ × ℕ)) : List (List (ℕ × ℕ × ℕ)) :=
  if cs ≤ 1 then l.map (fun p => [p]) else chunksOf cs.toNat l

/-- The merged results tensor of the parallel path: every chunk is handed to
`process_chunk_worker` and the returned `(i, j, k, t)` tuples are written
into the zero tensor (lines 163-175; the model merges in submission order,
and order independence is proved separately). -/
def mergedParallel (cell : ℕ × ℕ × ℕ → ℝ) (chunks : List (List (ℕ × ℕ × ℕ))) :
    ℕ → ℕ → ℕ → ℝ :=
  mergeWrites zeroTensor (chunks.flatMap (process_chunk_worker cell))

/-- The error message of line 216 (source text without the quoted backend). -/
def unknownBackendMsg : String :=
  "Unknown backend. Choose thread, process or multiprocessing."

/-- The post-validation part of `parameter_sweep` (lines 136-216): build the
results tensor and the index list, then either fill sequentially (lines
143-152, which `return` before the backend string is ever looked at), or
chunk and dispatch to one of the three backends (all three run
`process_chunk_worker` on every chunk and merge the returned tuples), or
raise the unknown-backend error of line 216. -/
def parameterSweepGo (fuel : ℕ) (r0 : List ℝ) (dt tf tol alpha : ℝ)
    (Av Bv : List ℝ) (v0s : List (List ℝ)) (parallel : Bool)
    (backend : String) (chunk_size : ℤ) :
    Except String ((ℕ × ℕ × ℕ) × (ℕ → ℕ → ℕ → ℝ)) :=
  let params := sweepParams Av.length Bv.length v0s.length
  let cell := sweepCell fuel r0 dt tf tol alpha Av Bv v0s
  let dims := (Av.length, Bv.length, v0s.length)
  if parallel = false then
    .ok (dims, mergeWrites zeroTensor (params.map fun q => (q, cell q)))
  else
    let chunks := pyChunks chunk_size params
    if backend = "thread" then .ok (dims, mergedParallel cell chunks)
    else if backend = "process" then .ok (dims, mergedParallel cell chunks)
    else if backend = "multiprocessing" then .ok (dims, mergedParallel cell chunks)
    else .error unknownBackendMsg

/-- Embedding of `parameter_sweep` (mp2.py lines 100-216).  Models: the `[1.0]` defaults
for `A_values`/`B_values` (lines 112-120); the `v0_values` validation and
ndim-1 promotion (lines 122-133); the sequential path (lines 143-152), which
returns before the backend is ever inspected; the chunked parallel path with
the three equivalent backends (lines 154-214); and the unknown-backend
`ValueError` (line 216).  `show_progress`/`max_workers` are UI and pool-size
glue with no effect on the returned tensor and are not modelled.  The result
is the tensor dimensions `(N_A, N_B, N_V)` together with the tensor itself. -/
def parameter_sweep (fuel : ℕ) (r0 : List ℝ) (v0_values : V0Arg)
    (dt tf tol alpha_dispersion : ℝ) (A_values B_values : Option (List ℝ))
    (parallel : Bool) (backend : String) (chunk_size : ℤ) :
    Except String ((ℕ × ℕ × ℕ) × (ℕ → ℕ → ℕ → ℝ)) :=
  let Av := A_values.getD [1]
  let Bv := B_values.getD [1]
  match v0_values with
  | .noArg => .error "v0_values must be provided"
  | .flat [] => .error "v0_values must be a 2D array (list of vectors)"
  | .mat [] => .error "v0_values must be a 2D array (list of vectors)"
  | .flat (x :: xs) =>
      parameterSweepGo fuel r0 dt tf tol alpha_dispersion Av Bv [x :: xs]
        parallel backend chunk_size
  | .mat (m0 :: ms) =>
      parameterSweepGo fuel r0 dt tf tol alpha_dispersion Av Bv (m0 :: ms)
        parallel backend chunk_size

end

/-! ## Basic norm and zero-state lemmas -/

lemma npNorm_nonneg {n : ℕ} (v : Vec n) : 0 ≤ npNorm v := Real.sqrt_nonneg _

lemma npNorm_zero {n : ℕ} : npNorm (0 : Vec n) = 0 := by
  unfold npNorm
  simp

lemma npNorm_smul {n : ℕ} (c : ℝ) (v : Vec n) : npNorm (c • v) = |c| * npNorm v := by
  unfold npNorm
  have h : ∑ i, (c • v) i ^ 2 = c ^ 2 * ∑ i, v i ^ 2 := by
    rw [Finset.mul_sum]
    refine Finset.sum_congr rfl fun i _ => ?_
    rw [Pi.smul_apply, smul_eq_mul]
    ring
  rw [h, Real.sqrt_mul (sq_nonneg c), Real.sqrt_sq_eq_abs]

lemma acceleration_zero {n : ℕ} : acceleration (0 : Vec n) = 0 := by
  unfold acceleration
  rw [npNorm_zero, if_pos (by norm_num)]

lemma vel_dispersion_zero {n : ℕ} (A B : ℝ) : vel_dispersion (0 : Vec n) A B = 0 :=
  smul_zero _

lemma rk4_step_zero {n : ℕ} (dt alpha A B : ℝ) :
    rk4_step (0 : Vec n) 0 dt alpha A B = (0, 0) := by
  simp [rk4_step, acceleration_zero, vel_dispersion_zero]

lemma twoStep_zeroState (p : SchwParams) (t dt : ℝ) (i : ℤ) :
    twoStep p (zeroState t dt i) = (0, 0) := by
  simp [twoStep, zeroState, rk4_step_zero]

lemma bigStep_zeroState (p : SchwParams) (t dt : ℝ) (i : ℤ) :
    bigStep p (zeroState t dt i) = (0, 0) := by
  simp [bigStep, zeroState, rk4_step_zero]

lemma errNorm_zeroState (p : SchwParams) (t dt : ℝ) (i : ℤ) :
    errNorm p (zeroState t dt i) = 1 / 10 ^ 20 := by
  unfold errNorm
  rw [twoStep_zeroState, bigStep_zeroState]
  simp [npNorm_zero]

lemma schwRho_zeroState (p : SchwParams) (t dt : ℝ) (i : ℤ) :
    schwRho p (zeroState t dt i) = 30 * dt * p.tol / (1 / 10 ^ 20) := by
  rw [schwRho, errNorm_zeroState]
  rfl

lemma schwBody_r_zeroState (p : SchwParams) (t dt : ℝ) (i : ℤ) :
    (schwBody p (zeroState t dt i)).r = 0 := by
  unfold schwBody
  split
  · rw [twoStep_zeroState]
  · rfl

lemma schwBody_t_zeroState_reject (p : SchwParams) (t dt : ℝ) (i : ℤ)
    (h : schwRho p (zeroState t dt i) < 1) :
    (schwBody p (zeroState t dt i)).t = t := by
  unfold schwBody
  rw [if_neg (not_le.mpr h)]
  rfl

lemma schwBody_i_zeroState_reject (p : SchwParams) (t dt : ℝ) (i : ℤ)
    (h : schwRho p (zeroState t dt i) < 1) :
    (schwBody p (zeroState t dt i)).i = i := by
  unfold schwBody
  rw [if_neg (not_le.mpr h)]
  rfl

lemma schwBody_t_zeroState_accept (p : SchwParams) (t dt : ℝ) (i : ℤ)
    (h : 1 ≤ schwRho p (zeroState t dt i)) :
    (schwBody p (zeroState t dt i)).t = t + 2 * dt := by
  unfold schwBody
  rw [if_pos h]
  rfl

lemma schwLoop_zero {n : ℕ} (p : SchwParams) (b : ℤ) (tf : ℝ) (st : SchwState n) :
    schwLoop p b tf 0 st = none := rfl

lemma schwLoop_succ {n : ℕ} (p : SchwParams) (b : ℤ) (tf : ℝ) (fuel : ℕ)
    (st : SchwState n) :
    schwLoop p b tf (fuel + 1) st =
      if st.i < b then
        if npNorm (schwBody p st).r < 1 / 10 ^ 7 then some (schwBody p st).t
        else schwLoop p b tf fuel (schwBody p st)
      else some tf := rfl

/-- If `schwLoop` returns `some res`, then either the budget was exhausted and
`res = tf`, or the threshold check fired right after some loop body whose
post-body radius is below `1e-7`, and `res` is that body's time. -/
lemma schwLoop_some {n : ℕ} (p : SchwParams) (b : ℤ) (tf : ℝ) :
    ∀ (fuel : ℕ) (st : SchwState n) (res : ℝ),
      schwLoop p b tf fuel st = some res →
      res = tf ∨ ∃ st' : SchwState n, st'.i < b ∧
        npNorm (schwBody p st').r < 1 / 10 ^ 7 ∧ res = (schwBody p st').t := by
  intro fuel
  induction fuel with
  | zero =>
    intro st res h
    rw [schwLoop_zero] at h
    cases h
  | succ k ih =>
    intro st res h
    rw [schwLoop_succ] at h
    by_cases hb : st.i < b
    · rw [if_pos hb] at h
      by_cases hthr : npNorm (schwBody p st).r < 1 / 10 ^ 7
      · rw [if_pos hthr] at h
        exact Or.inr ⟨st, hb, hthr, (Option.some_inj.mp h).symm⟩
      · rw [if_neg hthr] at h
        exact ih _ _ h
    · rw [if_neg hb] at h
      exact Or.inl (Option.some_inj.mp h).symm

/-! ## Claim C1: one outer iteration of the adaptive loop -/

/-- Claim C1: in every outer iteration, the error norm is `|r2 - r1|` floored
at `1e-20`, the acceptance ratio is `rho = 30 * dt * tol / norm`, the
iteration accepts exactly when `rho >= 1` (advancing `t` by `2*dt`,
committing state to the two-half-step result `(r1, v1)`, incrementing the
accepted-step counter), a rejected iteration leaves state and time unchanged,
and in both cases `dt` becomes `min(dt * rho^(1/4), 2*dt)`, hence at most
`2*dt`. -/
theorem c1_adaptive_iteration : ∀ (n : ℕ) (p : SchwParams) (st : SchwState n),
    errNorm p st =
      (if npNorm ((bigStep p st).1 - (twoStep p st).1) < 1 / 10 ^ 20 then
        1 / 10 ^ 20
      else npNorm ((bigStep p st).1 - (twoStep p st).1)) ∧
    1 / 10 ^ 20 ≤ errNorm p st ∧
    schwRho p st = 30 * st.dt * p.tol / errNorm p st ∧
    (1 ≤ schwRho p st →
      schwBody p st = ⟨(twoStep p st).1, (twoStep p st).2, st.t + 2 * st.dt,
        newDt p st, st.i + 1⟩) ∧
    (schwRho p st < 1 →
      schwBody p st = ⟨st.r, st.v, st.t, newDt p st, st.i⟩) ∧
    newDt p st = min (st.dt * schwRho p st ^ ((1:ℝ) / 4)) (2 * st.dt) ∧
    (schwBody p st).dt ≤ 2 * st.dt := by
  intro n p st
  have hdt : (schwBody p st).dt = newDt p st := by
    unfold schwBody
    split <;> rfl
  refine ⟨rfl, ?_, rfl, ?_, ?_, rfl, ?_⟩
  · unfold errNorm
    dsimp only
    split
    · exact le_refl _
    · next h => exact not_lt.mp h
  · intro h
    unfold schwBody
    rw [if_pos h]
  · intro h
    unfold schwBody
    rw [if_neg (not_le.mpr h)]
  · rw [hdt]
    exact min_le_right _ _

/-- Witness for C1: the accept and reject branches instantiated at the
all-zero 1-dimensional state with `dt = 1` — with `tol = 1e-7` the floored
norm gives `rho = 3e14 ≥ 1` (accept), with `tol = 1e-30` it gives
`rho = 3e-9 < 1` (reject). -/
theorem c1_adaptive_iteration_witness :
    schwBody ⟨1 / 10 ^ 7, 0, 1, 1⟩ (zeroState 0 1 0) =
      ⟨(twoStep ⟨1 / 10 ^ 7, 0, 1, 1⟩ (zeroState 0 1 0)).1,
        (twoStep ⟨1 / 10 ^ 7, 0, 1, 1⟩ (zeroState 0 1 0)).2, 0 + 2 * 1,
        newDt ⟨1 / 10 ^ 7, 0, 1, 1⟩ (zeroState 0 1 0), 0 + 1⟩ ∧
    schwBody ⟨1 / 10 ^ 30, 0, 1, 1⟩ (zeroState 0 1 0) =
      ⟨0, 0, 0, newDt ⟨1 / 10 ^ 30, 0, 1, 1⟩ (zeroState 0 1 0), 0⟩ := by
  constructor
  · exact (c1_adaptive_iteration 1 _ _).2.2.2.1
      (by rw [schwRho_zeroState]; norm_num)
  · exact (c1_adaptive_iteration 1 _ _).2.2.2.2.1
      (by rw [schwRho_zeroState]; norm_num)

/-! ## Claim C2: budget and the returned time versus tf -/

/-- Counterexample for C2: the returned value can exceed `tf`.  At the call
`time_to_schwarzschild(r0=[0], v0=[0], dt=-1, tf=-4, tol=1e-7)` the budget is
`int((-4)/(-1))//2 = 2`, the first iteration is rejected (`rho = -3e14 < 1`,
state stays at the zero vector), the threshold check `|r| < 1e-7` then fires
and the function returns `t = 0`, which is strictly greater than `tf = -4`. -/
theorem c2_counterexample :
    time_to_schwarzschild 1 (0 : Vec 1) 0 (-1) (-4) (1 / 10 ^ 7) 0 1 1 =
      some 0 ∧ (0:ℝ) > -4 := by
  refine ⟨?_, by norm_num⟩
  have hrho : schwRho ⟨1 / 10 ^ 7, 0, 1, 1⟩ (zeroState 0 (-1) 0) < 1 := by
    rw [schwRho_zeroState]
    norm_num
  have hb : (pyInt ((-4:ℝ) / (-1))).fdiv 2 = 2 := by
    have h4 : pyInt ((-4:ℝ) / (-1)) = 4 := by
      unfold pyInt
      rw [if_neg (by norm_num)]
      norm_num
    rw [h4]
    decide
  show schwLoop ⟨1 / 10 ^ 7, 0, 1, 1⟩ ((pyInt ((-4:ℝ) / (-1))).fdiv 2) (-4) 1
      (zeroState 0 (-1) 0) = some 0
  rw [hb, schwLoop_succ,
    if_pos (show (zeroState 0 (-1) 0).i < 2 by norm_num [zeroState]),
    if_pos (by rw [schwBody_r_zeroState, npNorm_zero]; norm_num),
    schwBody_t_zeroState_reject _ _ _ _ hrho]

/-- Claim C2 amended: the outer loop runs for a budget of
`int(tf/dt) // 2` accepted steps and, when a returned value does not come
from a threshold hit, it is exactly `tf`; in particular when the budget is
already exhausted the function returns `tf` immediately.  The original
claim's "the returned value never exceeds tf" is false (see the
counterexample): an early return reports the accumulated time of a
threshold hit, which is not bounded by `tf`. -/
theorem c2_amended : ∀ (n fuel : ℕ) (r0 v0 : Vec n) (dt tf tol alpha A B : ℝ),
    (∀ res : ℝ, time_to_schwarzschild fuel r0 v0 dt tf tol alpha A B = some res →
      res = tf ∨ ∃ st' : SchwState n, st'.i < (pyInt (tf / dt)).fdiv 2 ∧
        npNorm (schwBody ⟨tol, alpha, A, B⟩ st').r < 1 / 10 ^ 7 ∧
        res = (schwBody ⟨tol, alpha, A, B⟩ st').t) ∧
    (∀ (st : SchwState n) (f2 : ℕ), (pyInt (tf / dt)).fdiv 2 ≤ st.i →
      schwLoop ⟨tol, alpha, A, B⟩ ((pyInt (tf / dt)).fdiv 2) tf (f2 + 1) st =
        some tf) := by
  intro n fuel r0 v0 dt tf tol alpha A B
  constructor
  · intro res h
    exact schwLoop_some _ _ _ fuel _ res h
  · intro st f2 hb
    rw [schwLoop_succ, if_neg (not_lt.mpr hb)]

/-- Witness for C2 (amended): at `dt = 1`, `tf = 1` the budget
`int(1/1)//2` is `0`, the call returns `some 1 = some tf`, and both parts of
the amended theorem apply. -/
theorem c2_amended_witness :
    ((1:ℝ) = 1 ∨ ∃ st' : SchwState 1, st'.i < (pyInt ((1:ℝ) / 1)).fdiv 2 ∧
      npNorm (schwBody ⟨1 / 10 ^ 7, 0, 1, 1⟩ st').r < 1 / 10 ^ 7 ∧
      (1:ℝ) = (schwBody ⟨1 / 10 ^ 7, 0, 1, 1⟩ st').t) ∧
    schwLoop ⟨1 / 10 ^ 7, 0, 1, 1⟩ ((pyInt ((1:ℝ) / 1)).fdiv 2) 1 (0 + 1)
      (zeroState 5 1 0) = some 1 := by
  have hb : (pyInt ((1:ℝ) / 1)).fdiv 2 = 0 := by
    have h1 : pyInt ((1:ℝ) / 1) = 1 := by
      unfold pyInt
      rw [if_neg (by norm_num)]
      norm_num
    rw [h1]
    decide
  have hsome : time_to_schwarzschild 1 (0 : Vec 1) 0 1 1 (1 / 10 ^ 7) 0 1 1 =
      some 1 := by
    show schwLoop ⟨1 / 10 ^ 7, 0, 1, 1⟩ ((pyInt ((1:ℝ) / 1)).fdiv 2) 1 1
        (zeroState 0 1 0) = some 1
    rw [hb, schwLoop_succ,
      if_neg (show ¬(zeroState 0 1 0).i < 0 by norm_num [zeroState])]
  exact ⟨(c2_amended 1 1 0 0 1 1 (1 / 10 ^ 7) 0 1 1).1 1 hsome,
    (c2_amended 1 1 0 0 1 1 (1 / 10 ^ 7) 0 1 1).2 (zeroState 5 1 0) 0
      (by rw [hb]; norm_num [zeroState])⟩

/-! ## Claim C3: where the threshold check happens -/

/-- Counterexample for C3: the threshold check is performed after rejected
iterations too.  With `r0 = [0]`, `v0 = [0]`, `dt = 1`, `tf = 4`,
`tol = 1e-30` the first iteration is rejected (`rho = 3e-9 < 1`, the
accepted-step counter stays `0`), yet the function returns `some 0` from the
threshold check right after that rejected iteration. -/
theorem c3_counterexample :
    time_to_schwarzschild 1 (0 : Vec 1) 0 1 4 (1 / 10 ^ 30) 0 1 1 = some 0 ∧
    (schwBody ⟨1 / 10 ^ 30, 0, 1, 1⟩ (zeroState 0 1 0)).i = 0 ∧
    schwRho ⟨1 / 10 ^ 30, 0, 1, 1⟩ (zeroState 0 1 0) < 1 := by
  have hrho : schwRho ⟨1 / 10 ^ 30, 0, 1, 1⟩ (zeroState 0 1 0) < 1 := by
    rw [schwRho_zeroState]
    norm_num
  refine ⟨?_, schwBody_i_zeroState_reject _ _ _ _ hrho, hrho⟩
  have hb : (pyInt ((4:ℝ) / 1)).fdiv 2 = 2 := by
    have h4 : pyInt ((4:ℝ) / 1) = 4 := by
      unfold pyInt
      rw [if_neg (by norm_num)]
      norm_num
    rw [h4]
    decide
  show schwLoop ⟨1 / 10 ^ 30, 0, 1, 1⟩ ((pyInt ((4:ℝ) / 1)).fdiv 2) 4 1
      (zeroState 0 1 0) = some 0
  rw [hb, schwLoop_succ,
    if_pos (show (zeroState 0 1 0).i < 2 by norm_num [zeroState]),
    if_pos (by rw [schwBody_r_zeroState, npNorm_zero]; norm_num),
    schwBody_t_zeroState_reject _ _ _ _ hrho]

/-- Claim C3 amended: the early-exit threshold check `|r| < 1e-7` is
performed after every iteration of the loop body, accepted or rejected, and
when it holds the function returns the accumulated simulated time
immediately.  (Since a rejected iteration leaves the state unchanged, the
check can fire after a rejection only when the pre-iteration state already
satisfies `|r| < 1e-7`.) -/
theorem c3_amended : ∀ (n : ℕ) (p : SchwParams) (b : ℤ) (tf : ℝ) (fuel : ℕ)
    (st : SchwState n), st.i < b → npNorm (schwBody p st).r < 1 / 10 ^ 7 →
    schwLoop p b tf (fuel + 1) st = some (schwBody p st).t := by
  intro n p b tf fuel st hb hthr
  rw [schwLoop_succ, if_pos hb, if_pos hthr]

/-- Witness for C3 (amended): an accepted first iteration from the zero state
(`tol = 1e-7`, so `rho = 3e14 ≥ 1`) after which the threshold fires and the
loop returns that iteration's time. -/
theorem c3_amended_witness :
    schwLoop ⟨1 / 10 ^ 7, 0, 1, 1⟩ 2 4 (0 + 1) (zeroState 0 1 0) =
      some ((schwBody ⟨1 / 10 ^ 7, 0, 1, 1⟩ (zeroState 0 1 0)).t) :=
  c3_amended 1 ⟨1 / 10 ^ 7, 0, 1, 1⟩ 2 4 0 (zeroState 0 1 0)
    (by norm_num [zeroState])
    (by rw [schwBody_r_zeroState, npNorm_zero]; norm_num)

/-! ## Claim C10: degenerate budget -/

/-- Claim C10: whenever `int(tf / dt) < 2` the accepted-step budget
`int(tf/dt) // 2` is zero (or negative), so `time_to_schwarzschild` performs
no integration step and returns `tf` immediately — for every initial state,
including those with `|r0| < 1e-7`, because the threshold check lies inside
the loop body. -/
theorem c10_zero_budget_returns_tf : ∀ (n fuel : ℕ) (r0 v0 : Vec n)
    (dt tf tol alpha A B : ℝ), pyInt (tf / dt) < 2 →
    time_to_schwarzschild (fuel + 1) r0 v0 dt tf tol alpha A B = some tf := by
  intro n fuel r0 v0 dt tf tol alpha A B h
  have hb : (pyInt (tf / dt)).fdiv 2 ≤ 0 := by
    rw [Int.fdiv_eq_ediv _ (by norm_num)]
    omega
  unfold time_to_schwarzschild
  rw [schwLoop_succ]
  exact if_neg (not_lt.mpr hb)

/-- Witness for C10: `dt = 1`, `tf = 3/2` gives `int(1.5) = 1 < 2`, and the
call returns `tf = 3/2` even though the initial radius `|r0| = 0` is already
below the `1e-7` threshold. -/
theorem c10_zero_budget_witness :
    time_to_schwarzschild (0 + 1) (0 : Vec 1) 0 1 (3 / 2) (1 / 10 ^ 7) 0 1 1 =
      some (3 / 2) :=
  c10_zero_budget_returns_tf 1 0 0 0 1 (3 / 2) (1 / 10 ^ 7) 0 1 1
    (by unfold pyInt; rw [if_neg (by norm_num)]; norm_num)

/-! ## Claim C5: acceleration kernel -/

/-- Claim C5: for every position vector `r` with `|r| ≥ 1e-10`,
`acceleration(r)` equals `-r / (4 * |r|^3)` — antiparallel to `r` (a negative
scalar multiple) with magnitude `1/(4|r|^2)` — and for every `r` with
`|r| < 1e-10` it returns the zero vector. -/
theorem c5_acceleration_spec : ∀ (n : ℕ) (r : Vec n),
    (1 / 10 ^ 10 ≤ npNorm r →
      acceleration r = (-(1 / (4 * npNorm r ^ 3))) • r ∧
      npNorm (acceleration r) = 1 / (4 * npNorm r ^ 2)) ∧
    (npNorm r < 1 / 10 ^ 10 → acceleration r = 0) := by
  intro n r
  constructor
  · intro h
    have hpos : 0 < npNorm r := lt_of_lt_of_le (by norm_num) h
    have hne : npNorm r ≠ 0 := ne_of_gt hpos
    have hacc : acceleration r = (-1 / npNorm r ^ 3 / 4) • r := by
      unfold acceleration
      rw [if_neg (not_lt.mpr h)]
    constructor
    · rw [hacc]
      congr 1
      ring
    · rw [hacc, npNorm_smul]
      have hs : (-1 / npNorm r ^ 3 / 4) = -(1 / (4 * npNorm r ^ 3)) := by ring
      rw [hs, abs_neg, abs_of_nonneg (by positivity)]
      field_simp
      ring
  · intro h
    unfold acceleration
    rw [if_pos h]

/-- Witness for C5: both branches of the claim instantiated — at the
1-dimensional vector `(3)` (norm `3 ≥ 1e-10`) and at the zero vector
(norm `0 < 1e-10`). -/
theorem c5_acceleration_witness :
    (acceleration (fun _ => (3:ℝ) : Vec 1) =
        (-(1 / (4 * npNorm (fun _ => (3:ℝ) : Vec 1) ^ 3))) •
          (fun _ => (3:ℝ) : Vec 1) ∧
      npNorm (acceleration (fun _ => (3:ℝ) : Vec 1)) =
        1 / (4 * npNorm (fun _ => (3:ℝ) : Vec 1) ^ 2)) ∧
    acceleration (0 : Vec 1) = 0 := by
  have h3 : npNorm (fun _ => (3:ℝ) : Vec 1) = 3 := by
    unfold npNorm
    rw [Fin.sum_univ_one, show ((3:ℝ) ^ 2) = 9 by norm_num,
      show (9:ℝ) = 3 ^ 2 by norm_num, Real.sqrt_sq (by norm_num)]
  exact ⟨(c5_acceleration_spec 1 _).1 (by rw [h3]; norm_num),
    (c5_acceleration_spec 1 0).2 (by rw [npNorm_zero]; norm_num)⟩

/-! ## Claim C6: vel_dispersion degenerate case -/

/-- Claim C6 (supporting theorem for the code bug): `vel_dispersion` is the
bare formula `-A/(|v|^3 + B) * v` with no conditional guard of any kind, and
at the failing input `v = 0`, `B = 0` the denominator `|v|^3 + B` is exactly
zero — so the float code divides by zero (yielding `-inf * 0 = NaN` under
IEEE arithmetic) instead of returning the zero vector the spec requires. -/
theorem c6_vel_dispersion_unguarded :
    (∀ (n : ℕ) (v : Vec n) (A B : ℝ),
      vel_dispersion v A B = (-A / (npNorm v ^ 3 + B)) • v) ∧
    npNorm (0 : Vec 1) ^ 3 + (0:ℝ) = 0 := by
  refine ⟨fun _ _ _ _ => rfl, ?_⟩
  rw [npNorm_zero]
  norm_num

/-! ## Claim C7: alpha_dispersion = 0 disables drag -/

/-- Claim C7: `rk4_step(r, v, dt, 0, A, B)` is independent of the drag
parameters `A`, `B` and equals the pure two-body free-fall RK4 step
(`rk4_free`, the drag-free scheme modelled from the spec): with
`alpha_dispersion = 0` the drag contribution is disabled entirely. -/
theorem c7_rk4_alpha_zero : ∀ (n : ℕ) (r v : Vec n) (dt A B A2 B2 : ℝ),
    rk4_step r v dt 0 A B = rk4_step r v dt 0 A2 B2 ∧
    rk4_step r v dt 0 A B = rk4_free r v dt := by
  intro n r v dt A B A2 B2
  constructor <;> simp [rk4_step, rk4_free]

/-! ## Sweep-layer lemmas -/

lemma chunksOf_flatten {α : Type} (cs : ℕ) :
    ∀ l : List α, (chunksOf cs l).flatten = l
  | [] => by simp [chunksOf]
  | x :: xs => by
    rw [chunksOf, List.flatten_cons, chunksOf_flatten cs (xs.drop (cs - 1)),
      List.cons_append, List.take_append_drop]
  termination_by l => l.length
  decreasing_by simp [List.length_drop]; omega

lemma flatten_singletons {α : Type} :
    ∀ l : List α, (l.map (fun p => [p])).flatten = l
  | [] => rfl
  | x :: xs => by
    rw [List.map_cons, List.flatten_cons, flatten_singletons xs]
    rfl

lemma pyChunks_flatten (cs : ℤ) (l : List (ℕ × ℕ × ℕ)) :
    (pyChunks cs l).flatten = l := by
  unfold pyChunks
  split
  · exact flatten_singletons l
  · exact chunksOf_flatten _ l

lemma flatMap_worker (cell : ℕ × ℕ × ℕ → ℝ) :
    ∀ L : List (List (ℕ × ℕ × ℕ)),
      L.flatMap (process_chunk_worker cell) =
        L.flatten.map fun q => (q, cell q)
  | [] => rfl
  | c :: L' => by
    rw [List.flatMap_cons, flatMap_worker cell L', List.flatten_cons,
      List.map_append]
    rfl

lemma mergeWrites_lookup (cell : ℕ × ℕ × ℕ → ℝ) :
    ∀ (M : List (ℕ × ℕ × ℕ)) (f0 : ℕ → ℕ → ℕ → ℝ) (a b c : ℕ),
      mergeWrites f0 (M.map fun q => (q, cell q)) a b c =
        if (a, b, c) ∈ M then cell (a, b, c) else f0 a b c := by
  intro M
  induction M with
  | nil => intro f0 a b c; simp [mergeWrites]
  | cons q0 M' ih =>
    intro f0 a b c
    have hstep : mergeWrites f0 ((q0 :: M').map fun q => (q, cell q)) a b c =
        mergeWrites (writeCell f0 q0 (cell q0)) (M'.map fun q => (q, cell q))
          a b c := rfl
    rw [hstep, ih]
    by_cases h1 : (a, b, c) ∈ M'
    · simp [h1, List.mem_cons]
    · rw [if_neg h1]
      unfold writeCell
      by_cases h2 : (a, b, c) = q0
      · simp [h2, List.mem_cons]
      · simp [h1, h2, List.mem_cons]

lemma mergedParallel_eq (cell : ℕ × ℕ × ℕ → ℝ) (cs : ℤ)
    (params : List (ℕ × ℕ × ℕ)) :
    mergedParallel cell (pyChunks cs params) =
      mergeWrites zeroTensor (params.map fun q => (q, cell q)) := by
  unfold mergedParallel
  rw [flatMap_worker, pyChunks_flatten]

lemma sweepParams_mem (NA NB NV : ℕ) (q : ℕ × ℕ × ℕ) :
    q ∈ sweepParams NA NB NV ↔ q.1 < NA ∧ q.2.1 < NB ∧ q.2.2 < NV := by
  obtain ⟨a, b, c⟩ := q
  simp [sweepParams, List.mem_product, List.mem_range]

lemma sweepParams_nodup (NA NB NV : ℕ) : (sweepParams NA NB NV).Nodup :=
  (List.nodup_range NA).product
    ((List.nodup_range NB).product (List.nodup_range NV))

lemma countP_flatten_sum {α : Type} (p : α → Bool) :
    ∀ L : List (List α),
      L.flatten.countP p = (L.map fun c => c.countP p).sum
  | [] => rfl
  | c :: L' => by
    rw [List.flatten_cons, List.countP_append, List.map_cons, List.sum_cons,
      countP_flatten_sum p L']

lemma countP_eq_one_of_nodup {α : Type} [DecidableEq α] (l : List α)
    (h : l.Nodup) (a : α) :
    l.countP (fun x => decide (x = a)) = if a ∈ l then 1 else 0 := by
  induction l with
  | nil => rfl
  | cons b bs ih =>
    have hnd := List.nodup_cons.mp h
    rw [List.countP_cons, ih hnd.2]
    by_cases hab : a = b
    · subst hab
      simp [hnd.1]
    · have hba : ¬(b = a) := fun hh => hab hh.symm
      simp [hba, hab, List.mem_cons]

lemma parameterSweepGo_false (fuel : ℕ) (r0 : List ℝ) (dt tf tol alpha : ℝ)
    (Av Bv : List ℝ) (v0s : List (List ℝ)) (b : String) (cs : ℤ) :
    parameterSweepGo fuel r0 dt tf tol alpha Av Bv v0s false b cs =
      .ok ((Av.length, Bv.length, v0s.length),
        mergeWrites zeroTensor
          ((sweepParams Av.length Bv.length v0s.length).map fun q =>
            (q, sweepCell fuel r0 dt tf tol alpha Av Bv v0s q))) := rfl

lemma parameterSweepGo_thread (fuel : ℕ) (r0 : List ℝ) (dt tf tol alpha : ℝ)
    (Av Bv : List ℝ) (v0s : List (List ℝ)) (cs : ℤ) :
    parameterSweepGo fuel r0 dt tf tol alpha Av Bv v0s true "thread" cs =
      .ok ((Av.length, Bv.length, v0s.length),
        mergedParallel (sweepCell fuel r0 dt tf tol alpha Av Bv v0s)
          (pyChunks cs (sweepParams Av.length Bv.length v0s.length))) := rfl

/-! ## Claim C4: partition and batching-independence of the sweep -/

/-- Claim C4: every triple of `range(N_A) x range(N_B) x range(N_V)` appears
in exactly one batch (total occurrence count across batches is one), the
merged results tensor is independent of the batching — a sequential sweep, a
parallel `backend='thread'` sweep, and parallel sweeps with any two chunk
sizes (in particular `1` versus `8`) return identical results — and merging
the worker outputs of any permutation (completion order) of the batches
yields the same tensor, each cell being written exactly once. -/
theorem c4_sweep_partition_deterministic : ∀ (fuel : ℕ) (r0 : List ℝ)
    (dt tf tol alpha : ℝ) (Av Bv : List ℝ) (v0s : List (List ℝ))
    (cs cs' : ℤ) (b : String) (i j k : ℕ),
    (((pyChunks cs (sweepParams Av.length Bv.length v0s.length)).map
        (fun c => c.countP (fun q => decide (q = (i, j, k))))).sum =
      if i < Av.length ∧ j < Bv.length ∧ k < v0s.length then 1 else 0) ∧
    parameter_sweep fuel r0 (.mat v0s) dt tf tol alpha (some Av) (some Bv)
        false b cs =
      parameter_sweep fuel r0 (.mat v0s) dt tf tol alpha (some Av) (some Bv)
        true "thread" cs ∧
    parameter_sweep fuel r0 (.mat v0s) dt tf tol alpha (some Av) (some Bv)
        true "thread" cs =
      parameter_sweep fuel r0 (.mat v0s) dt tf tol alpha (some Av) (some Bv)
        true "thread" cs' ∧
    ∀ C' : List (List (ℕ × ℕ × ℕ)),
      C'.Perm (pyChunks cs (sweepParams Av.length Bv.length v0s.length)) →
      mergedParallel (sweepCell fuel r0 dt tf tol alpha Av Bv v0s) C' =
        mergedParallel (sweepCell fuel r0 dt tf tol alpha Av Bv v0s)
          (pyChunks cs (sweepParams Av.length Bv.length v0s.length)) := by
  intro fuel r0 dt tf tol alpha Av Bv v0s cs cs' b i j k
  refine ⟨?_, ?_, ?_, ?_⟩
  · rw [← countP_flatten_sum, pyChunks_flatten,
      countP_eq_one_of_nodup _ (sweepParams_nodup _ _ _)]
    simp only [sweepParams_mem]
  · cases v0s with
    | nil => rfl
    | cons m0 ms =>
      simp only [parameter_sweep, Option.getD_some]
      rw [parameterSweepGo_false, parameterSweepGo_thread, mergedParallel_eq]
  · cases v0s with
    | nil => rfl
    | cons m0 ms =>
      simp only [parameter_sweep, Option.getD_some]
      rw [parameterSweepGo_thread, parameterSweepGo_thread, mergedParallel_eq,
        mergedParallel_eq]
  · intro C' hperm
    have hmem : ∀ x : ℕ × ℕ × ℕ, x ∈ C'.flatten ↔
        x ∈ sweepParams Av.length Bv.length v0s.length := by
      intro x
      rw [List.mem_flatten,
        show sweepParams Av.length Bv.length v0s.length =
          (pyChunks cs (sweepParams Av.length Bv.length v0s.length)).flatten
          from (pyChunks_flatten _ _).symm,
        List.mem_flatten]
      constructor
      · rintro ⟨l, hl, hx⟩
        exact ⟨l, hperm.mem_iff.mp hl, hx⟩
      · rintro ⟨l, hl, hx⟩
        exact ⟨l, hperm.mem_iff.mpr hl, hx⟩
    unfold mergedParallel
    rw [flatMap_worker, flatMap_worker, pyChunks_flatten]
    funext a b2 c2
    rw [mergeWrites_lookup, mergeWrites_lookup]
    exact if_congr (hmem (a, b2, c2)) rfl rfl

/-- Witness for C4: for the grid `A_values = [1, 2]`, `B_values = [1]`,
`v0_values = [[0]]` with `chunk_size = 1` the two singleton batches merged in
reversed (completion) order give the same tensor as the submission order. -/
theorem c4_sweep_witness :
    mergedParallel (sweepCell 1 [0] 1 1 (1 / 10 ^ 7) 0 [1, 2] [1] [[0]])
        [[(1, 0, 0)], [(0, 0, 0)]] =
      mergedParallel (sweepCell 1 [0] 1 1 (1 / 10 ^ 7) 0 [1, 2] [1] [[0]])
        (pyChunks 1 (sweepParams ([1, 2] : List ℝ).length
          ([1] : List ℝ).length ([[0]] : List (List ℝ)).length)) := by
  apply (c4_sweep_partition_deterministic 1 [0] 1 1 (1 / 10 ^ 7) 0 [1, 2] [1]
    [[0]] 1 8 "thread" 0 0 0).2.2.2
  have he : pyChunks 1 (sweepParams ([1, 2] : List ℝ).length
      ([1] : List ℝ).length ([[0]] : List (List ℝ)).length) =
      [[(0, 0, 0)], [(1, 0, 0)]] := rfl
  rw [he]
  exact List.Perm.swap _ _ _

/-! ## Claim C8: backend validation -/

/-- Counterexample for C8: with `parallel=False` an unknown backend string is
never checked — the call returns a results tensor (`isOk`) instead of
failing, silently running the sequential sweep. -/
theorem c8_counterexample :
    (parameter_sweep 1 [0] (.mat [[0]]) 1 1 (1 / 10 ^ 7) 0 none none false
      "bogus" 8).isOk = true ∧
    "bogus" ≠ "thread" ∧ "bogus" ≠ "process" ∧ "bogus" ≠ "multiprocessing" :=
  ⟨rfl, by decide, by decide, by decide⟩

/-- Claim C8 amended: with `parallel=True`, a backend string other than
`thread`/`process`/`multiprocessing` makes `parameter_sweep` fail with the
unknown-backend `ValueError` before any dispatch; but with `parallel=False`
the backend string is ignored entirely and the sequential sweep runs and
returns its tensor (the backend check is only reached on the parallel
path). -/
theorem c8_amended : ∀ (fuel : ℕ) (r0 m0 : List ℝ) (ms : List (List ℝ))
    (dt tf tol alpha : ℝ) (Ao Bo : Option (List ℝ)) (b : String) (cs : ℤ),
    (b ≠ "thread" → b ≠ "process" → b ≠ "multiprocessing" →
      parameter_sweep fuel r0 (.mat (m0 :: ms)) dt tf tol alpha Ao Bo true b
        cs = .error unknownBackendMsg) ∧
    parameter_sweep fuel r0 (.mat (m0 :: ms)) dt tf tol alpha Ao Bo false b
        cs =
      .ok (((Ao.getD [1]).length, (Bo.getD [1]).length, (m0 :: ms).length),
        mergeWrites zeroTensor
          ((sweepParams (Ao.getD [1]).length (Bo.getD [1]).length
              (m0 :: ms).length).map fun q =>
            (q, sweepCell fuel r0 dt tf tol alpha (Ao.getD [1]) (Bo.getD [1])
              (m0 :: ms) q))) := by
  intro fuel r0 m0 ms dt tf tol alpha Ao Bo b cs
  constructor
  · intro h1 h2 h3
    simp only [parameter_sweep, parameterSweepGo]
    rw [if_neg (by simp : ¬(true = false)), if_neg h1, if_neg h2, if_neg h3]
  · simp only [parameter_sweep]
    rw [parameterSweepGo_false]

/-- Witness for C8 (amended): the unknown backend string `bogus` with
`parallel=True` raises the configuration error, while the same string with
`parallel=False` returns the sequential tensor. -/
theorem c8_amended_witness :
    parameter_sweep 1 [0] (.mat [[0]]) 1 1 (1 / 10 ^ 7) 0 none none true
        "bogus" 8 = .error unknownBackendMsg ∧
    parameter_sweep 1 [0] (.mat [[0]]) 1 1 (1 / 10 ^ 7) 0 none none false
        "bogus" 8 =
      .ok ((1, 1, 1), mergeWrites zeroTensor ((sweepParams 1 1 1).map fun q =>
        (q, sweepCell 1 [0] 1 1 (1 / 10 ^ 7) 0 [1] [1] [[0]] q))) :=
  ⟨(c8_amended 1 [0] [0] [] 1 1 (1 / 10 ^ 7) 0 none none "bogus" 8).1
      (by decide) (by decide) (by decide),
    (c8_amended 1 [0] [0] [] 1 1 (1 / 10 ^ 7) 0 none none "bogus" 8).2⟩

/-! ## Claim C9: v0_values validation and promotion -/

/-- Claim C9: `parameter_sweep` raises a configuration error when
`v0_values` is `None` or empty (both the empty flat array and the empty
list of vectors), and a single flat non-empty vector is promoted to a
one-element sequence of vectors, giving a sweep identical to the
corresponding one-vector 2D input with output dimensions `(N_A, N_B, 1)`. -/
theorem c9_v0_validation : ∀ (fuel : ℕ) (r0 : List ℝ) (dt tf tol alpha : ℝ)
    (Ao Bo : Option (List ℝ)) (par : Bool) (b : String) (cs : ℤ) (x : ℝ)
    (xs : List ℝ),
    parameter_sweep fuel r0 .noArg dt tf tol alpha Ao Bo par b cs =
      .error "v0_values must be provided" ∧
    parameter_sweep fuel r0 (.flat []) dt tf tol alpha Ao Bo par b cs =
      .error "v0_values must be a 2D array (list of vectors)" ∧
    parameter_sweep fuel r0 (.mat []) dt tf tol alpha Ao Bo par b cs =
      .error "v0_values must be a 2D array (list of vectors)" ∧
    parameter_sweep fuel r0 (.flat (x :: xs)) dt tf tol alpha Ao Bo par b cs =
      parameter_sweep fuel r0 (.mat [x :: xs]) dt tf tol alpha Ao Bo par b
        cs ∧
    Except.map Prod.fst
        (parameter_sweep fuel r0 (.flat (x :: xs)) dt tf tol alpha Ao Bo
          false b cs) =
      .ok ((Ao.getD [1]).length, (Bo.getD [1]).length, 1) := by
  intro fuel r0 dt tf tol alpha Ao Bo par b cs x xs
  refine ⟨rfl, rfl, rfl, rfl, ?_⟩
  simp only [parameter_sweep]
  rw [parameterSweepGo_false]
  rfl

end MP2
